import Mathlib

/- Verification development for the Google Maps lead-scraping backend.
   The Python sources are shallowly embedded: pure helpers become Lean
   functions on character lists, the MongoDB collection becomes a list of
   stored documents with explicit upsert semantics, and the detail-page
   retry loop becomes a fold over a trace of attempt outcomes. -/

/-! Phone normalization, embedded from app/parsers.py (normalize_phone)
    and the strip pattern PHONE_NORMALIZE_REGEX of app/utils/config.py. -/

/-- Characters kept by the strip pattern [^0-9+] (PHONE_NORMALIZE_REGEX):
digits and plus signs survive, every other character is removed. -/
def phoneKeepChar (c : Char) : Bool := c.isDigit || c == '+'

/-- Effect of re.sub(PHONE_NORMALIZE_REGEX, "", s) on the character list. -/
def stripPhoneChars (s : List Char) : List Char := s.filter phoneKeepChar

/-- Replacement of a leading 00 by a plus sign, as in normalize_phone. -/
def replaceLeading00 : List Char → List Char
  | '0' :: '0' :: rest => '+' :: rest
  | s => s

/-- Stripped and 00-rewritten form of an input, on which normalize_phone
performs its length check. -/
def strippedPhone (s : List Char) : List Char :=
  replaceLeading00 (stripPhoneChars s)

/-- Embedding of normalize_phone (app/parsers.py lines 8 to 32) on character
lists: empty input is falsy in Python and yields none; then strip, rewrite a
leading 00, and accept only when the resulting length lies in 6..15. -/
def normalizeChars (s : List Char) : Option (List Char) :=
  if s.isEmpty then none
  else
    let ns := strippedPhone s
    if ns.length < 6 || 15 < ns.length then none
    else some ns

/-- String-level wrapper of normalize_phone, keeping the source name. -/
def normalize_phone (s : String) : Option String :=
  match normalizeChars s.toList with
  | none => none
  | some cs => some (String.mk cs)

/-- normalize_phone on an optional input: a missing phone (None in Python)
is falsy and yields none, mirroring the initial guard of normalize_phone. -/
def normalizePhoneOpt : Option String → Option String
  | none => none
  | some s => normalize_phone s

/-- Number of digit characters in a string, used to state the claims that
speak about digit counts. -/
def digitCount (s : String) : Nat := (s.toList.filter Char.isDigit).length

/-- C9: normalize("+1 (512) 555-0123") = "+15125550123" and
normalize("00441234567890") = "+441234567890": non-digits are stripped and a
leading 00 is replaced by a plus sign. -/
theorem normalize_phone_examples :
    normalize_phone "+1 (512) 555-0123" = some "+15125550123" ∧
    normalize_phone "00441234567890" = some "+441234567890" := by
  decide

/-- Helper: the string is empty exactly when its character list is empty. -/
theorem toList_isEmpty_iff (s : String) : s.toList.isEmpty = true ↔ s = "" := by
  cases s with
  | mk data => cases data <;> simp [String.toList, String.ext_iff]

/-- C6 amended: normalize_phone returns none exactly when the input is empty
or the stripped and 00-rewritten form has length below 6 or above 15 (the
length counts retained plus signs, not only digits); at the boundary a
5-digit input is rejected and a 6-digit input accepted. -/
theorem normalize_phone_none_iff :
    (∀ s : String, normalize_phone s = none ↔
      (s = "" ∨ (strippedPhone s.toList).length < 6 ∨
        15 < (strippedPhone s.toList).length)) ∧
    normalize_phone "12345" = none ∧
    normalize_phone "123456" = some "123456" := by
  refine ⟨fun s => ?_, by decide, by decide⟩
  rw [normalize_phone, normalizeChars]
  simp only [String.toList]
  by_cases he : s.data.isEmpty = true
  · have hs := (toList_isEmpty_iff s).mp he
    simp [he, hs]
  · have hs : ¬ s = "" := fun h => he ((toList_isEmpty_iff s).mpr h)
    rw [if_neg he]
    by_cases hl : (strippedPhone s.data).length < 6 ∨ 15 < (strippedPhone s.data).length
    · simp [hl, hs]
    · simp [hl, hs]

/-- C6 counterexample: an input with exactly 15 digits and a leading plus is
rejected by normalize_phone although its stripped digit count (15) lies in
the accepted range 6..15, because the length check also counts the plus. -/
theorem normalize_phone_digit_count_cex :
    normalize_phone "+123456789012345" = none ∧
    digitCount "+123456789012345" = 15 ∧
    ¬ (digitCount "+123456789012345" < 6 ∨
       15 < digitCount "+123456789012345") := by
  decide

/-! Detail-page phone pipeline, embedded from app/parsers.py
    (parse_detail_page_html, phone extraction section). -/

/-- Shape required by the claim for a normalized phone: digits only, with at
most one optional leading plus sign. -/
def claimPhoneShape (s : String) : Bool :=
  match s.toList with
  | '+' :: rest => rest.all Char.isDigit
  | l => l.all Char.isDigit

/-- Accumulating loop of the phone extraction section of
parse_detail_page_html: each candidate text is normalized; a non-null
normalized value not already collected is appended. -/
def collectPhonesAux (acc : List String) : List String → List String
  | [] => acc
  | t :: ts =>
    match normalize_phone t with
    | some n => collectPhonesAux (if acc.contains n then acc else acc ++ [n]) ts
    | none => collectPhonesAux acc ts

/-- Normalized, deduplicated phone values collected from the candidate texts
of the detail page, in first-seen order. -/
def collectPhones (texts : List String) : List String := collectPhonesAux [] texts

/-- Phone field stored by parse_detail_page_html: absent when nothing was
collected, the single value when one remains, the pipe-join when several. -/
def detailPhoneField (texts : List String) : Option String :=
  match collectPhones texts with
  | [] => none
  | [p] => some p
  | ps => some (String.intercalate "|" ps)

/-- C7 counterexample: the strip pattern keeps every plus sign, so an input
with an interior plus normalizes to a value that is not digits with at most
one leading plus. -/
theorem normalize_phone_plus_shape_cex :
    normalize_phone "123+456" = some "123+456" ∧
    claimPhoneShape "123+456" = false := by
  decide

/-- Helper: every character surviving the strip filter satisfies the keep
predicate. -/
theorem stripPhoneChars_all (s : List Char) :
    (stripPhoneChars s).all phoneKeepChar = true := by
  rw [List.all_eq_true]
  intro c hc
  exact List.of_mem_filter hc

/-- Helper: rewriting a leading 00 to a plus preserves the keep predicate. -/
theorem replaceLeading00_all (l : List Char) (h : l.all phoneKeepChar = true) :
    (replaceLeading00 l).all phoneKeepChar = true := by
  unfold replaceLeading00
  split
  · simp_all [phoneKeepChar, List.all_cons]
  · exact h

/-- Helper: a successful normalizeChars returns exactly the stripped and
00-rewritten form. -/
theorem normalizeChars_eq_some (s cs : List Char) (h : normalizeChars s = some cs) :
    cs = strippedPhone s := by
  simp only [normalizeChars] at h
  split at h
  · exact absurd h (by simp)
  · split at h
    · exact absurd h (by simp)
    · exact (Option.some.inj h).symm

/-- Helper: the collecting loop preserves the no-duplicates invariant. -/
theorem collectPhonesAux_nodup (ts : List String) (acc : List String)
    (hacc : acc.Nodup) : (collectPhonesAux acc ts).Nodup := by
  induction ts generalizing acc with
  | nil => exact hacc
  | cons t ts ih =>
    cases hn : normalize_phone t with
    | none =>
      simp only [collectPhonesAux, hn]
      exact ih acc hacc
    | some n =>
      simp only [collectPhonesAux, hn]
      by_cases hc : acc.contains n = true
      · rw [if_pos hc]
        exact ih acc hacc
      · rw [if_neg hc]
        apply ih
        have hnmem : n ∉ acc := by
          intro hm
          exact hc (by simpa [List.elem_iff] using hm)
        simp [List.nodup_append, hacc, hnmem]

/-- Helper: every collected phone comes from the accumulator or is the
normalization of one of the candidate texts. -/
theorem collectPhonesAux_sound (ts : List String) (acc : List String) :
    ∀ p ∈ collectPhonesAux acc ts,
      p ∈ acc ∨ ∃ t ∈ ts, normalize_phone t = some p := by
  induction ts generalizing acc with
  | nil => exact fun p hp => Or.inl hp
  | cons t ts ih =>
    intro p hp
    cases hn : normalize_phone t with
    | none =>
      simp only [collectPhonesAux, hn] at hp
      rcases ih acc p hp with h | ⟨u, hu, h⟩
      · exact Or.inl h
      · exact Or.inr ⟨u, List.mem_cons_of_mem _ hu, h⟩
    | some n =>
      simp only [collectPhonesAux, hn] at hp
      by_cases hc : acc.contains n = true
      · rw [if_pos hc] at hp
        rcases ih acc p hp with h | ⟨u, hu, h⟩
        · exact Or.inl h
        · exact Or.inr ⟨u, List.mem_cons_of_mem _ hu, h⟩
      · rw [if_neg hc] at hp
        rcases ih (acc ++ [n]) p hp with h | ⟨u, hu, h⟩
        · rcases List.mem_append.mp h with h1 | h1
          · exact Or.inl h1
          · have hpn : p = n := by simpa using h1
            exact Or.inr ⟨t, List.mem_cons_self _ _, hpn ▸ hn⟩
        · exact Or.inr ⟨u, List.mem_cons_of_mem _ hu, h⟩

/-- C7 amended: a non-null normalize result consists only of digit and plus
characters (a plus may survive at any position, not only leading); the
detail-page phone field is built from normalize outputs, deduplicated in
first-seen order, and joined with a pipe when more than one value remains. -/
theorem normalize_phone_shape_and_detail_join :
    (∀ s r, normalize_phone s = some r →
      r.toList.all (fun c => c.isDigit || c == '+') = true) ∧
    (∀ texts : List String,
      (collectPhones texts).Nodup ∧
      (∀ p ∈ collectPhones texts, ∃ t ∈ texts, normalize_phone t = some p) ∧
      (∀ p ps, collectPhones texts = p :: ps → ps ≠ [] →
        detailPhoneField texts = some (String.intercalate "|" (p :: ps)))) := by
  constructor
  · intro s r h
    rw [normalize_phone] at h
    cases hn : normalizeChars s.toList with
    | none => rw [hn] at h; exact absurd h (by simp)
    | some cs =>
      rw [hn] at h
      have hr : r = String.mk cs := (Option.some.inj h).symm
      have hcs := normalizeChars_eq_some _ _ hn
      subst hr hcs
      show (strippedPhone s.toList).all phoneKeepChar = true
      exact replaceLeading00_all _ (stripPhoneChars_all _)
  · intro texts
    refine ⟨collectPhonesAux_nodup texts [] List.nodup_nil, ?_, ?_⟩
    · intro p hp
      rcases collectPhonesAux_sound texts [] p hp with h | h
      · exact absurd h (List.not_mem_nil p)
      · exact h
    · intro p ps h hne
      rw [detailPhoneField, h]
      cases ps with
      | nil => exact absurd rfl hne
      | cons q qs => rfl

/-- Witness for the amended C7 theorem at concrete inputs: the characters of
a concrete normalize output, the no-duplicates property of a concrete
collection with a repeated candidate, and a concrete two-value pipe join. -/
theorem normalize_phone_shape_and_detail_join_witness :
    ("+15125550123".toList.all (fun c => c.isDigit || c == '+') = true) ∧
    (collectPhones ["+1 (512) 555-0123", "+1 (512) 555-0123", "12345"]).Nodup ∧
    detailPhoneField ["+1 (512) 555-0123", "00441234567890"] =
      some (String.intercalate "|" ["+15125550123", "+441234567890"]) :=
  ⟨normalize_phone_shape_and_detail_join.1 "+1 (512) 555-0123" "+15125550123"
      (by decide),
   (normalize_phone_shape_and_detail_join.2
      ["+1 (512) 555-0123", "+1 (512) 555-0123", "12345"]).1,
   (normalize_phone_shape_and_detail_join.2
      ["+1 (512) 555-0123", "00441234567890"]).2.2 "+15125550123"
      ["+441234567890"] (by decide) (by decide)⟩

/-! Business records and the completeness predicate, embedded from
    app/db_mongo.py (is_record_complete) and the record dictionaries built
    by app/parsers.py. -/

/-- Typed form of the business dictionaries moved between the parser, the
orchestrator and the persistence layer. Missing dictionary entries are none. -/
structure Business where
  name : Option String
  address : Option String
  phone : Option String
  website : Option String
  rating : Option Rat
  reviews : Option Nat
  google_maps_url : Option String
  category : Option String
  hours : Option String
deriving Repr, DecidableEq

/-- Character-list test that a string starts with the given pattern, used in
place of the byte-based core function so that proofs can evaluate. -/
def startsWithChars : List Char → List Char → Bool
  | _, [] => true
  | [], _ :: _ => false
  | c :: cs, p :: ps => c == p && startsWithChars cs ps

/-- Python str.startswith on the character lists of both strings. -/
def strStartsWith (s pat : String) : Bool := startsWithChars s.toList pat.toList

/-- Embedding of is_record_complete (app/db_mongo.py lines 183 to 202): the
phone must be present with at least 6 characters (raw length, no
normalization), and the website must be present and start with http. A
missing or empty field is falsy in Python and fails the corresponding check;
an empty string also fails the length and startswith tests themselves. -/
def is_record_complete (b : Business) : Bool :=
  (match b.phone with
   | some p => decide (6 ≤ p.length)
   | none => false) &&
  (match b.website with
   | some w => strStartsWith w "http"
   | none => false)

/-- Modelled from the claim wording for comparison: a record is complete
when its phone normalizes to at least 6 digits and its website starts with
http. This is the predicate the claim asserts, not the code. -/
def completeSpec (b : Business) : Bool :=
  (match normalizePhoneOpt b.phone with
   | some n => decide (6 ≤ digitCount n)
   | none => false) &&
  (match b.website with
   | some w => strStartsWith w "http"
   | none => false)

/-- Business whose phone is six parentheses: normalization strips them all
and returns none, yet the raw length check accepts it. -/
def parensPhoneBusiness : Business :=
  { name := none, address := none, phone := some "((((((",
    website := some "http://example.com", rating := none, reviews := none,
    google_maps_url := none, category := none, hours := none }

/-- C5 counterexample: is_record_complete accepts a record whose phone does
not normalize at all (six parentheses, zero digits), so the claimed
equivalence with the normalized-digit predicate fails. -/
theorem is_record_complete_cex :
    is_record_complete parensPhoneBusiness = true ∧
    normalizePhoneOpt parensPhoneBusiness.phone = none ∧
    completeSpec parensPhoneBusiness = false := by
  decide

/-- C5 amended: a record is complete exactly when its phone is present with
at least 6 characters of raw length and its website is present and starts
with http; the phone is not normalized by the completeness check. -/
theorem is_record_complete_iff (b : Business) :
    is_record_complete b = true ↔
      ((∃ p, b.phone = some p ∧ 6 ≤ p.length) ∧
       (∃ w, b.website = some w ∧ strStartsWith w "http" = true)) := by
  cases hp : b.phone <;> cases hw : b.website <;>
    simp [is_record_complete, hp, hw]

/-! Listing extraction and the per-card orchestrator branch, embedded from
    app/parsers.py (parse_card_html) and app/crawlers/google_maps_crawlee.py
    (handle_page, per-business processing). -/

/-- Python truthiness for optional strings: a missing value and the empty
string are both falsy. -/
def truthy : Option String → Option String
  | none => none
  | some s => if s.isEmpty then none else some s

/-- Fields extracted from one listing card by the selector fallbacks of
parse_card_html, before the record dictionary is assembled. The selector
machinery itself is abstracted: only the extracted values matter to the
record it builds. -/
structure CardExtract where
  name : Option String
  address : Option String
  phone : Option String
  rating : Option Rat
  reviews : Option Nat
  google_maps_url : Option String
  category : Option String
deriving Repr, DecidableEq

/-- Record dictionary appended by parse_card_html for one card
(app/parsers.py lines 200 to 214): website and hours are hard-coded None,
to be enriched later from the detail page. -/
def buildCardRecord (c : CardExtract) : Business :=
  { name := c.name, address := c.address, phone := c.phone, website := none,
    rating := c.rating, reviews := c.reviews,
    google_maps_url := c.google_maps_url, category := c.category,
    hours := none }

/-- Embedding of the record-assembly part of parse_card_html: a card yields
a record only when it has a truthy name or a truthy detail URL. -/
def parse_card_html (cards : List CardExtract) : List Business :=
  (cards.filter (fun c =>
    (truthy c.name).isSome || (truthy c.google_maps_url).isSome)).map
    buildCardRecord

/-- Per-business branch taken by handle_page after the duplicate check
(app/crawlers/google_maps_crawlee.py lines 374 to 390). -/
inductive CardAction where
  | skipDuplicate
  | skipDetailComplete
  | enrichDetail
  | saveWithoutDetail
deriving Repr, DecidableEq

/-- Embedding of the handle_page per-business decision: an already-stored
URL is skipped; an already-complete record skips the detail visit; otherwise
the detail page is visited when a URL exists. -/
def cardAction (existsInDb : Bool) (b : Business) : CardAction :=
  if (truthy b.google_maps_url).isSome && existsInDb then .skipDuplicate
  else if is_record_complete b then .skipDetailComplete
  else if (truthy b.google_maps_url).isSome then .enrichDetail
  else .saveWithoutDetail

/-- C10: every record built by listing extraction has website None and hours
None, hence is never complete, hence the handle_page branch that skips the
detail visit because a card is already complete cannot be taken for a
freshly parsed card. -/
theorem parse_card_html_never_complete (cards : List CardExtract) (r : Business)
    (hr : r ∈ parse_card_html cards) (existsInDb : Bool) :
    r.website = none ∧ r.hours = none ∧ is_record_complete r = false ∧
    cardAction existsInDb r ≠ CardAction.skipDetailComplete := by
  rcases List.mem_map.mp hr with ⟨c, _, rfl⟩
  have hcomplete : is_record_complete (buildCardRecord c) = false := by
    simp [is_record_complete, buildCardRecord]
  refine ⟨rfl, rfl, hcomplete, ?_⟩
  rw [cardAction]
  by_cases hdup : (truthy (buildCardRecord c).google_maps_url).isSome ∧ existsInDb = true
  · simp [hdup.1, hdup.2]
  · rw [if_neg (by simpa [Bool.and_eq_true] using hdup)]
    rw [hcomplete]
    by_cases hurl : (truthy (buildCardRecord c).google_maps_url).isSome
    · simp [hurl]
    · simp [hurl]

/-- Sample card with a name and a detail URL, as extracted from a listing. -/
def sampleCard : CardExtract :=
  { name := some "Cafe", address := none, phone := some "+15125550123",
    rating := none, reviews := none,
    google_maps_url := some "https://www.google.com/maps/place/cafe",
    category := none }

/-- Witness for C10 at a concrete card: its parsed record has no website, no
hours, is not complete, and does not take the skip-as-complete branch. -/
theorem parse_card_html_never_complete_witness :
    (buildCardRecord sampleCard).website = none ∧
    (buildCardRecord sampleCard).hours = none ∧
    is_record_complete (buildCardRecord sampleCard) = false ∧
    cardAction false (buildCardRecord sampleCard) ≠
      CardAction.skipDetailComplete :=
  parse_card_html_never_complete [sampleCard] _ (by decide) false

/-! Persistence, embedded from app/db_mongo.py (save_business). The MongoDB
    collection becomes a list of stored documents; update_one with a filter
    on the identity field updates the first matching document, and with
    upsert enabled inserts a new document when none matches. The collection
    call itself lives in the pymongo driver; its standard upsert semantics
    is embedded here as the explicit list operation the code requests. -/

/-- Identity key of the upsert filter: the detail URL when truthy, else the
phone (save_business, key selection). -/
inductive DedupKey where
  | byUrl (u : String)
  | byPhone (p : String)
deriving Repr, DecidableEq

/-- Key priority of save_business: google_maps_url over phone; a record with
neither is rejected. -/
def dedupKey (b : Business) : Option DedupKey :=
  match truthy b.google_maps_url with
  | some u => some (.byUrl u)
  | none =>
    match truthy b.phone with
    | some p => some (.byPhone p)
    | none => none

/-- Whether a stored record matches the upsert filter built from the key. -/
def keyMatches (k : DedupKey) (b : Business) : Bool :=
  match k with
  | .byUrl u => b.google_maps_url == some u
  | .byPhone p => b.phone == some p

/-- One stored document: the business fields set by the upsert, plus the
created_at timestamp that setOnInsert writes only on first insert. -/
structure StoredDoc where
  business : Business
  created_at : Nat
deriving Repr, DecidableEq

/-- Default of the DB_UPSERT_ON_INSERT configuration toggle. -/
def DB_UPSERT_ON_INSERT : Bool := true

/-- update_one touches only the first document matching the filter. -/
def updateFirst (p : StoredDoc → Bool) (f : StoredDoc → StoredDoc) :
    List StoredDoc → List StoredDoc
  | [] => []
  | d :: ds => if p d then f d :: ds else d :: updateFirst p f ds

/-- Embedding of save_business (app/db_mongo.py lines 205 to 265): choose
the identity key, reject keyless records, atomically upsert. The returned
Bool signals novelty: true only when a new document was inserted; a match
returns false whether or not the update changed any field (the code only
logs the difference between its updated and unchanged branches). -/
def save_business (db : List StoredDoc) (now : Nat) (b : Business) :
    Bool × List StoredDoc :=
  match dedupKey b with
  | none => (false, db)
  | some k =>
    if db.any (fun d => keyMatches k d.business) then
      (false, updateFirst (fun d => keyMatches k d.business)
        (fun d => { d with business := b }) db)
    else if DB_UPSERT_ON_INSERT then
      (true, db ++ [{ business := b, created_at := now }])
    else (false, db)

/-- Number of stored documents matching the identity key. -/
def countMatching (k : DedupKey) (db : List StoredDoc) : Nat :=
  (db.filter (fun d => keyMatches k d.business)).length

/-- Helper: a truthy optional string is the underlying string. -/
theorem truthy_eq_some {o : Option String} {s : String}
    (h : truthy o = some s) : o = some s := by
  cases o with
  | none => exact absurd h (by simp [truthy])
  | some t =>
    rw [truthy] at h
    by_cases he : t.isEmpty = true
    · rw [if_pos he] at h
      exact absurd h (by simp)
    · rw [if_neg he] at h
      exact congrArg some (Option.some.inj h)

/-- Helper: a record matches the filter built from its own identity key. -/
theorem dedupKey_self_matches (b : Business) (k : DedupKey)
    (hk : dedupKey b = some k) : keyMatches k b = true := by
  rw [dedupKey] at hk
  cases hu : truthy b.google_maps_url with
  | some u =>
    rw [hu] at hk
    have : k = .byUrl u := (Option.some.inj hk).symm
    subst this
    simp [keyMatches, truthy_eq_some hu]
  | none =>
    rw [hu] at hk
    cases hp : truthy b.phone with
    | some p =>
      rw [hp] at hk
      have : k = .byPhone p := (Option.some.inj hk).symm
      subst this
      simp [keyMatches, truthy_eq_some hp]
    | none => rw [hp] at hk; exact absurd hk (by simp)

/-- Helper: when no earlier document matches, updateFirst passes over the
prefix and rewrites the appended matching document. -/
theorem updateFirst_append_fresh (p : StoredDoc → Bool)
    (f : StoredDoc → StoredDoc) (db : List StoredDoc) (d0 : StoredDoc)
    (hfresh : ∀ d ∈ db, p d = false) (hd0 : p d0 = true) :
    updateFirst p f (db ++ [d0]) = db ++ [f d0] := by
  induction db with
  | nil => simp [updateFirst, hd0]
  | cons d ds ih =>
    have hd := hfresh d (List.mem_cons_self d ds)
    simp only [List.cons_append, updateFirst, hd, Bool.false_eq_true,
      if_false]
    exact congrArg (List.cons d)
      (ih (fun x hx => hfresh x (List.mem_cons_of_mem d hx)))

/-- C1: with the upsert keyed by detail URL when present, else phone, saving
a fresh record twice with an unchanged identity key reports created on the
first save, reports an update (false) on the second, and leaves exactly one
stored document under that key. -/
theorem save_business_create_then_update (db : List StoredDoc) (b : Business)
    (k : DedupKey) (t1 t2 : Nat) (hk : dedupKey b = some k)
    (hfresh : ∀ d ∈ db, keyMatches k d.business = false) :
    (save_business db t1 b).1 = true ∧
    (save_business (save_business db t1 b).2 t2 b).1 = false ∧
    countMatching k (save_business (save_business db t1 b).2 t2 b).2 = 1 := by
  have hself : keyMatches k b = true := dedupKey_self_matches b k hk
  have hany1 : db.any (fun d => keyMatches k d.business) = false := by
    rw [List.any_eq_false]
    intro d hd
    simp [hfresh d hd]
  have hstep1 : save_business db t1 b =
      (true, db ++ [StoredDoc.mk b t1]) := by
    simp only [save_business, hk]
    rw [if_neg (by simp [hany1])]
    rfl
  have hany2 : (db ++ [StoredDoc.mk b t1]).any
      (fun d => keyMatches k d.business) = true := by
    rw [List.any_append]
    simp [hself]
  have hupd : updateFirst (fun d => keyMatches k d.business)
      (fun d => { d with business := b }) (db ++ [StoredDoc.mk b t1]) =
      db ++ [StoredDoc.mk b t1] := by
    exact updateFirst_append_fresh _ _ db _ hfresh hself
  have hstep2 : save_business (db ++ [StoredDoc.mk b t1]) t2 b =
      (false, db ++ [StoredDoc.mk b t1]) := by
    simp only [save_business, hk]
    rw [if_pos (by simp [hany2]), hupd]
  have hfilter : db.filter (fun d => keyMatches k d.business) = [] := by
    rw [List.filter_eq_nil_iff]
    intro d hd
    simp [hfresh d hd]
  refine ⟨by rw [hstep1], ?_, ?_⟩
  · rw [hstep1, hstep2]
  · rw [hstep1, hstep2]
    simp [countMatching, List.filter_append, hfilter, hself]

/-- Business used as the concrete saved record in the C1 witness. -/
def sampleBusiness : Business :=
  { name := some "Cafe", address := some "1 Main St",
    phone := some "+15125550123", website := some "http://cafe.example",
    rating := none, reviews := none,
    google_maps_url := some "https://www.google.com/maps/place/cafe",
    category := none, hours := none }

/-- Witness for C1 on the empty collection and a concrete record keyed by
its detail URL: first save creates, second save updates, one document. -/
theorem save_business_create_then_update_witness :
    (save_business [] 0 sampleBusiness).1 = true ∧
    (save_business (save_business [] 0 sampleBusiness).2 1 sampleBusiness).1 =
      false ∧
    countMatching (.byUrl "https://www.google.com/maps/place/cafe")
      (save_business (save_business [] 0 sampleBusiness).2 1 sampleBusiness).2 =
      1 :=
  save_business_create_then_update []
    sampleBusiness (.byUrl "https://www.google.com/maps/place/cafe") 0 1
    (by decide) (fun d hd => absurd hd (List.not_mem_nil d))

/-! Detail-page enrichment retry loop, embedded from
    app/crawlers/google_maps_crawlee.py (visit_detail_page_and_enrich) with
    MAX_DETAIL_ATTEMPTS from app/utils/config.py (default 3). One attempt of
    the loop is abstracted by its observable outcome: success, a CAPTCHA
    detection, a navigation timeout, or another error. -/

/-- Session statistics dictionary of GoogleMapsCrawlee. -/
structure Stats where
  total_attempted : Nat
  total_successful : Nat
  captcha_encounters : Nat
  detail_failures : Nat
  detail_successes : Nat
deriving Repr, DecidableEq

/-- Outcome of one attempt of the retry loop: the navigation, extraction and
save path completes; the block detector fires; the navigation times out; or
some other exception occurs. -/
inductive AttemptOutcome where
  | success
  | captcha
  | timeout
  | failure
deriving Repr, DecidableEq

/-- Observable result of visit_detail_page_and_enrich: the returned Bool,
the statistics after the call, the backoff delays slept between attempts,
and how many attempts were started. -/
structure EnrichResult where
  ok : Bool
  stats : Stats
  delays : List Nat
  attemptsMade : Nat
deriving Repr, DecidableEq

/-- Default of the MAX_DETAIL_ATTEMPTS configuration value. -/
def MAX_DETAIL_ATTEMPTS : Nat := 3

/-- Backoff unit of the retry loop: the code sleeps 2000 * attempt ms. -/
def BACKOFF_UNIT_MS : Nat := 2000

/-- Embedding of the attempt loop (for attempt in 1..MAX_DETAIL_ATTEMPTS):
on success the success counters bump and the loop returns true; on CAPTCHA
the captcha counter bumps and the attempt falls through to retry handling;
timeouts and other errors fall through directly; between attempts (only
when another attempt remains) a backoff of 2000 * attempt ms is slept; when
the attempt list is exhausted the failure counter bumps once and the loop
returns false. -/
def enrichGo (outcome : Nat → AttemptOutcome) (maxAttempts : Nat) :
    List Nat → Stats → List Nat → Nat → EnrichResult
  | [], st, delays, made =>
    { ok := false,
      stats := { st with detail_failures := st.detail_failures + 1 },
      delays := delays, attemptsMade := made }
  | a :: rest, st, delays, made =>
    match outcome a with
    | .success =>
      { ok := true,
        stats := { st with
          detail_successes := st.detail_successes + 1,
          total_successful := st.total_successful + 1 },
        delays := delays, attemptsMade := made + 1 }
    | o =>
      enrichGo outcome maxAttempts rest
        (if o = AttemptOutcome.captcha
          then { st with captcha_encounters := st.captcha_encounters + 1 }
          else st)
        (if a < maxAttempts then delays ++ [BACKOFF_UNIT_MS * a] else delays)
        (made + 1)

/-- Embedding of visit_detail_page_and_enrich: without a truthy detail URL
the function returns false at once, consuming no attempt and touching no
counter; otherwise total_attempted bumps and the retry loop runs over
attempts 1 to MAX_DETAIL_ATTEMPTS. -/
def visit_detail_page_and_enrich (url : Option String)
    (outcome : Nat → AttemptOutcome) (st : Stats) : EnrichResult :=
  match truthy url with
  | none => { ok := false, stats := st, delays := [], attemptsMade := 0 }
  | some _ =>
    enrichGo outcome MAX_DETAIL_ATTEMPTS (List.range' 1 MAX_DETAIL_ATTEMPTS)
      { st with total_attempted := st.total_attempted + 1 } [] 0

/-- C2: when every attempt times out, enrich returns false after exactly
MAX_DETAIL_ATTEMPTS (3) attempts, detail_failures bumps by exactly one, and
detail_successes and total_successful are unchanged. -/
theorem enrich_all_timeouts (st : Stats) (u : String)
    (outcome : Nat → AttemptOutcome) (hu : u.isEmpty = false)
    (h : ∀ i, 1 ≤ i → i ≤ MAX_DETAIL_ATTEMPTS →
      outcome i = AttemptOutcome.timeout) :
    (visit_detail_page_and_enrich (some u) outcome st).ok = false ∧
    (visit_detail_page_and_enrich (some u) outcome st).attemptsMade =
      MAX_DETAIL_ATTEMPTS ∧
    (visit_detail_page_and_enrich (some u) outcome st).stats.detail_failures =
      st.detail_failures + 1 ∧
    (visit_detail_page_and_enrich (some u) outcome st).stats.detail_successes =
      st.detail_successes ∧
    (visit_detail_page_and_enrich (some u) outcome st).stats.total_successful =
      st.total_successful := by
  have h1 := h 1 (by decide) (by decide)
  have h2 := h 2 (by decide) (by decide)
  have h3 := h 3 (by decide) (by decide)
  have hr : List.range' 1 MAX_DETAIL_ATTEMPTS = [1, 2, 3] := by decide
  simp [visit_detail_page_and_enrich, truthy, hu, hr, enrichGo, h1, h2, h3,
    MAX_DETAIL_ATTEMPTS]

/-- Witness for C2: a concrete always-timeout trace from zeroed statistics. -/
theorem enrich_all_timeouts_witness :
    (visit_detail_page_and_enrich (some "url")
      (fun _ => AttemptOutcome.timeout) (Stats.mk 0 0 0 0 0)).ok = false ∧
    (visit_detail_page_and_enrich (some "url")
      (fun _ => AttemptOutcome.timeout)
      (Stats.mk 0 0 0 0 0)).attemptsMade = MAX_DETAIL_ATTEMPTS ∧
    (visit_detail_page_and_enrich (some "url")
      (fun _ => AttemptOutcome.timeout)
      (Stats.mk 0 0 0 0 0)).stats.detail_failures = 0 + 1 ∧
    (visit_detail_page_and_enrich (some "url")
      (fun _ => AttemptOutcome.timeout)
      (Stats.mk 0 0 0 0 0)).stats.detail_successes = 0 ∧
    (visit_detail_page_and_enrich (some "url")
      (fun _ => AttemptOutcome.timeout)
      (Stats.mk 0 0 0 0 0)).stats.total_successful = 0 :=
  enrich_all_timeouts (Stats.mk 0 0 0 0 0) "url"
    (fun _ => AttemptOutcome.timeout) (by decide) (fun _ _ _ => rfl)

/-- C3: when attempts 1 and 2 hit a CAPTCHA and attempt 3 succeeds, enrich
returns true, captcha_encounters bumps by exactly 2, detail_successes bumps
by exactly 1, and the two backoff delays are 2000 then 4000 ms, equal to
attempt_number times the 2000 ms unit and non-decreasing. -/
theorem enrich_blocked_twice_then_success (st : Stats) (u : String)
    (outcome : Nat → AttemptOutcome) (hu : u.isEmpty = false)
    (h1 : outcome 1 = AttemptOutcome.captcha)
    (h2 : outcome 2 = AttemptOutcome.captcha)
    (h3 : outcome 3 = AttemptOutcome.success) :
    (visit_detail_page_and_enrich (some u) outcome st).ok = true ∧
    (visit_detail_page_and_enrich (some u) outcome st).stats.captcha_encounters
      = st.captcha_encounters + 2 ∧
    (visit_detail_page_and_enrich (some u) outcome st).stats.detail_successes
      = st.detail_successes + 1 ∧
    (visit_detail_page_and_enrich (some u) outcome st).delays =
      [BACKOFF_UNIT_MS * 1, BACKOFF_UNIT_MS * 2] ∧
    (visit_detail_page_and_enrich (some u) outcome st).delays =
      [2000, 4000] := by
  have hr : List.range' 1 MAX_DETAIL_ATTEMPTS = [1, 2, 3] := by decide
  simp [visit_detail_page_and_enrich, truthy, hu, hr, enrichGo, h1, h2, h3,
    MAX_DETAIL_ATTEMPTS, BACKOFF_UNIT_MS]

/-- Witness for C3: a concrete blocked-blocked-success trace from zeroed
statistics. -/
theorem enrich_blocked_twice_then_success_witness :
    (visit_detail_page_and_enrich (some "url")
      (fun i => if i ≤ 2 then AttemptOutcome.captcha else
        AttemptOutcome.success) (Stats.mk 0 0 0 0 0)).ok = true ∧
    (visit_detail_page_and_enrich (some "url")
      (fun i => if i ≤ 2 then AttemptOutcome.captcha else
        AttemptOutcome.success)
      (Stats.mk 0 0 0 0 0)).stats.captcha_encounters = 0 + 2 ∧
    (visit_detail_page_and_enrich (some "url")
      (fun i => if i ≤ 2 then AttemptOutcome.captcha else
        AttemptOutcome.success)
      (Stats.mk 0 0 0 0 0)).stats.detail_successes = 0 + 1 ∧
    (visit_detail_page_and_enrich (some "url")
      (fun i => if i ≤ 2 then AttemptOutcome.captcha else
        AttemptOutcome.success)
      (Stats.mk 0 0 0 0 0)).delays = [BACKOFF_UNIT_MS * 1, BACKOFF_UNIT_MS * 2] ∧
    (visit_detail_page_and_enrich (some "url")
      (fun i => if i ≤ 2 then AttemptOutcome.captcha else
        AttemptOutcome.success)
      (Stats.mk 0 0 0 0 0)).delays = [2000, 4000] :=
  enrich_blocked_twice_then_success (Stats.mk 0 0 0 0 0) "url"
    (fun i => if i ≤ 2 then AttemptOutcome.captcha else
      AttemptOutcome.success) (by decide) (by decide) (by decide) (by decide)

/-! Session orchestration error flow, embedded from
    app/crawlers/google_maps_crawlee.py (handle_page listing gate, lines 339
    to 347, and run_async error handling, lines 410 to 465). -/

/-- Exceptions distinguished by the error handling of run_async. -/
inductive SessionError where
  | captchaDetected
  | other
deriving Repr, DecidableEq

/-- Result of one invocation of handle_page: either an exception carrying
the statistics as mutated so far, or a normal return. -/
inductive SessionStep where
  | raised (e : SessionError) (st : Stats)
  | returned (st : Stats)
deriving Repr, DecidableEq

/-- Embedding of the listing-page gate of handle_page: when the block
detector fires on the search results page, captcha_encounters bumps and
CaptchaDetectedError is raised, aborting the session with no internal retry
of the listing page; otherwise the rest of handle_page runs. -/
def handle_page_gate (listingBlocked : Bool) (rest : Stats → SessionStep)
    (st : Stats) : SessionStep :=
  if listingBlocked then
    SessionStep.raised .captchaDetected
      { st with captcha_encounters := st.captcha_encounters + 1 }
  else rest st

/-- Statistics dictionary returned by run_async. -/
structure CrawlStats where
  results_count : Nat
  stats : Stats
deriving Repr, DecidableEq

/-- Observable outcome of run_async for its caller: a normal statistics
return, or a propagated exception. -/
inductive RunResult where
  | ok (s : CrawlStats)
  | raised (e : SessionError)
deriving Repr, DecidableEq

/-- Embedding of the error handling of run_async: the crawler processes the
single search page through handle_page; a CaptchaDetectedError escaping it
is caught, counted as one more captcha encounter, and the function falls
through to return the statistics dictionary normally; any other exception
is re-raised to the caller. -/
def run_async (listingBlocked : Bool) (rest : Stats → SessionStep)
    (st : Stats) (rc : Nat) : RunResult :=
  match handle_page_gate listingBlocked rest st with
  | .raised .captchaDetected st1 =>
    RunResult.ok (CrawlStats.mk rc
      { st1 with captcha_encounters := st1.captcha_encounters + 1 })
  | .raised .other _ => RunResult.raised .other
  | .returned st1 => RunResult.ok (CrawlStats.mk rc st1)

/-- C4 evaluation: when the listing page is blocked, run_async returns a
normal statistics dictionary (with the captcha counter bumped twice, once
by handle_page and once by the except branch) instead of raising the
blocked failure to its caller; the top-level CAPTCHA retry of the caller
can therefore never trigger. -/
theorem run_async_swallows_listing_block (rest : Stats → SessionStep)
    (st : Stats) (rc : Nat) :
    run_async true rest st rc =
      RunResult.ok (CrawlStats.mk rc
        { st with captcha_encounters := st.captcha_encounters + 2 }) := by
  rfl

/-! Block detection, embedded from app/crawlers/google_maps_crawlee.py
    (is_captcha_present, lines 92 to 141). -/

/-- Fixed phrase set scanned against the lowercased page HTML. -/
def blockingIndicators : List String :=
  ["unusual traffic", "captcha", "sorry", "automated requests",
   "verify you\x27re not a robot", "our systems have detected",
   "please verify"]

/-- Rendered page state as seen by the detector: whether a reCAPTCHA-style
iframe is present, whether a CAPTCHA-redirect form is present, and the full
rendered HTML. -/
structure PageState where
  hasRecaptchaIframe : Bool
  hasCaptchaForm : Bool
  content : String
deriving Repr, DecidableEq

/-- Lowercased character list of a string, the content.lower() of the code
restricted to the ASCII case mapping. -/
def lowerChars (s : String) : List Char := s.toList.map Char.toLower

/-- Substring test on character lists (the Python in operator on str). -/
def containsSeq (needle : List Char) : List Char → Bool
  | [] => needle.isEmpty
  | c :: cs => startsWithChars (c :: cs) needle || containsSeq needle cs

/-- Embedding of is_captcha_present: first the reCAPTCHA iframe check, then
the CAPTCHA-redirect form check, then the case-insensitive phrase scan of
the rendered HTML, each short-circuiting on first match. -/
def is_captcha_present (p : PageState) : Bool :=
  if p.hasRecaptchaIframe then true
  else if p.hasCaptchaForm then true
  else blockingIndicators.any
    (fun ind => containsSeq ind.toList (lowerChars p.content))

/-- Helper: every indicator phrase is already lowercase. -/
theorem blockingIndicators_lower :
    ∀ ind ∈ blockingIndicators, lowerChars ind = ind.toList := by
  decide

/-- C8: the detector returns true for every page whose rendered HTML
contains one of the fixed phrases as a case-insensitive substring, and
false for every page containing none of the phrases and having neither a
reCAPTCHA-style iframe nor a CAPTCHA-redirect form. -/
theorem is_captcha_present_spec (p : PageState) :
    (∀ ind ∈ blockingIndicators,
      containsSeq (lowerChars ind) (lowerChars p.content) = true →
        is_captcha_present p = true) ∧
    ((∀ ind ∈ blockingIndicators,
        containsSeq (lowerChars ind) (lowerChars p.content) = false) →
      p.hasRecaptchaIframe = false → p.hasCaptchaForm = false →
      is_captcha_present p = false) := by
  constructor
  · intro ind hmem hc
    rw [is_captcha_present]
    by_cases hi : p.hasRecaptchaIframe = true
    · simp [hi]
    · rw [if_neg hi]
      by_cases hf : p.hasCaptchaForm = true
      · simp [hf]
      · rw [if_neg hf]
        simp only [List.any_eq_true]
        exact ⟨ind, hmem, by rw [← blockingIndicators_lower ind hmem]; exact hc⟩
  · intro hnone hi hf
    rw [is_captcha_present]
    rw [if_neg (by simp [hi]), if_neg (by simp [hf])]
    rw [List.any_eq_false]
    intro ind hmem
    have h := hnone ind hmem
    rw [blockingIndicators_lower ind hmem] at h
    have h2 : containsSeq ind.data (lowerChars p.content) = false := h
    simp [h2]

/-- Page whose HTML mentions unusual traffic in mixed case. -/
def blockedPage : PageState :=
  { hasRecaptchaIframe := false, hasCaptchaForm := false,
    content := "Our systems have detected Unusual Traffic from your network" }

/-- Page with none of the indicator phrases and no iframe or form. -/
def cleanPage : PageState :=
  { hasRecaptchaIframe := false, hasCaptchaForm := false,
    content := "<html><body>list of coffee shops</body></html>" }

/-- Witness for C8 at two concrete pages: the mixed-case unusual-traffic
page is detected, the clean page is not. -/
theorem is_captcha_present_spec_witness :
    is_captcha_present blockedPage = true ∧
    is_captcha_present cleanPage = false :=
  ⟨(is_captcha_present_spec blockedPage).1 "unusual traffic" (by decide)
      (by decide),
   (is_captcha_present_spec cleanPage).2 (by decide) rfl rfl⟩
